import Mathlib

/-!
Verification development for `project_scanner.py`, a tool that walks a
directory tree, filters files by extension and skip-lists, and concatenates
their contents into one annotated text buffer.

Shallow embedding conventions:
* A filesystem path is its list of components (Python `path.parts`), so the
  absolute path of an entry found by `rglob` is `rootParts ++ relParts`.
* `rglob("*")` is modelled by an explicit list of entries in discovery order;
  every yielded path lies under the resolved root, so its path relative to
  the root (`relative_to` never raises for them) is carried directly.
* Reading a file (`open` + `read` with `errors="ignore"`) is modelled by an
  `Except String String` carried on the entry: `.ok content` for a successful
  permissively-decoded read, `.error msg` for any raised exception's message.
* The three `subprocess.check_output` git queries are modelled by three
  `Except Unit String` parameters (captured stdout on success, `.error ()`
  when the command is missing or exits nonzero).
* `datetime.now().strftime(...)` is modelled by a timestamp string parameter.
* Python `str.lower` is `pyLower` (the configured names are ASCII);
  `str.strip` is `pyStrip`; `str.splitlines` is `pySplitlines` (inputs
  without carriage returns); `str.startswith` is `pyStartswith`.
-/

namespace ProjectScanner

/-- `FILE_TYPES` from the configuration block (line 14). -/
def FILE_TYPES : List String :=
  [".py", ".js", ".jsx", ".ts", ".tsx", ".html", ".css",
   ".md", ".txt", ".json", ".yml", ".yaml", ".xml", ".csv",
   ".java", ".c", ".cpp", ".h", ".sql", ".sh", ".bat", ".ps1"]

/-- `SKIP_DIRS` from the configuration block (line 19). -/
def SKIP_DIRS : List String :=
  [".git", "__pycache__", "node_modules", "venv", "env",
   ".venv", "dist", "build", ".idea", ".vscode", "target",
   "bin", "obj", "debug", "release"]

/-- `SKIP_FILES` from the configuration block (line 24). -/
def SKIP_FILES : List String :=
  ["package-lock.json", "yarn.lock", ".ds_store", "thumbs.db"]

/-- `MAX_FILE_SIZE = 95 * 1024 * 1024` (line 27). -/
def MAX_FILE_SIZE : Nat := 95 * 1024 * 1024

/-- Python `str.lower` (the configured names and the compared path
components are ASCII, where `Char.toLower` agrees with Python). Defined by
structural recursion over the character list so that it evaluates on
concrete inputs. -/
def pyLower (s : String) : String :=
  String.mk (s.data.map Char.toLower)

/-- Python `str.strip`: remove leading and trailing whitespace. -/
def pyStrip (s : String) : String :=
  String.mk
    (((s.data.dropWhile Char.isWhitespace).reverse.dropWhile
      Char.isWhitespace).reverse)

/-- Python `name.rfind('.')`: index of the last `'.'` in the character list,
`none` when absent. -/
def rfindDot (cs : List Char) : Option Nat :=
  ((List.range cs.length).filter fun i => cs.getD i ' ' = '.').getLast?

/-- Python `PurePath.suffix` applied to a final path component `name`:
the substring from the last dot, provided that dot is neither the first nor
the last character; otherwise the empty string. -/
def pySuffix (name : String) : String :=
  let cs := name.data
  match rfindDot cs with
  | some i => if 0 < i ∧ i < cs.length - 1 then String.mk (cs.drop i) else ""
  | none => ""

/-- Split a character list at newline characters, keeping empty pieces. -/
def splitLinesAux : List Char → List (List Char)
  | [] => [[]]
  | c :: rest =>
      match splitLinesAux rest with
      | [] => [[]]
      | cur :: done =>
          if c = '\n' then [] :: cur :: done else (c :: cur) :: done

/-- Python `str.splitlines` for strings without carriage returns: split on
newline, with no trailing empty line for a newline-terminated string. -/
def pySplitlines (s : String) : List String :=
  if s = "" then []
  else
    let l := (splitLinesAux s.data).map String.mk
    if l.getLast? = some "" then l.dropLast else l

/-- Python `str.startswith`. -/
def pyStartswith (s p : String) : Bool :=
  p.data.isPrefixOf s.data

/-- Python truthiness of an optional string: `None` and `""` are falsy. -/
def pyTruthy : Option String → Bool
  | none => false
  | some s => !(s = "")

/-- `should_skip_path` (lines 33-46): skip when any component of the path,
lowercased, is in `SKIP_DIRS`, or the final component, lowercased, is in
`SKIP_FILES`. -/
def should_skip_path (parts : List String) : Bool :=
  parts.any (fun part => decide (pyLower part ∈ SKIP_DIRS)) ||
  decide (pyLower (parts.getLastD "") ∈ SKIP_FILES)

/-- `get_git_info` (lines 48-57), on the captured results of the three git
queries. All three must succeed; a failure anywhere yields
`(None, None, 0)`. On success the branch and commit outputs are stripped and
the modified-or-untracked count scans the porcelain status lines for the
prefixes `" M"` and `"??"`. -/
def get_git_info (branchQ commitQ statusQ : Except Unit String) :
    Option String × Option String × Nat :=
  match branchQ, commitQ, statusQ with
  | .ok b, .ok c, .ok s =>
      (some (pyStrip b), some (pyStrip c),
        ((pySplitlines s).filter
          fun line => pyStartswith line " M" || pyStartswith line "??").length)
  | _, _, _ => (none, none, 0)

/-- An entry enumerated by `root_path.rglob("*")`: its path relative to the
resolved root, whether it is a regular file, its size in bytes (present in
the filesystem but never consulted by the scanner), and the outcome of
reading it as text. -/
structure Entry where
  relParts : List String
  isFile : Bool
  size : Nat
  readResult : Except String String

/-- The scanner's accumulating state: `combined_code`, `file_count`, and the
abstract ScanResult sequence of (relative path, content) pairs recorded in
the order the loop body appends file contents. -/
structure ScanState where
  buffer : String
  count : Nat
  results : List (List String × String)

/-- Python `str(path)` for a relative path: components joined by `/`. -/
def joinParts (parts : List String) : String :=
  String.intercalate "/" parts

/-- One iteration of the `for current_path in root_path.rglob("*")` loop
(lines 89-109). -/
def scanStep (rootParts : List String) (st : ScanState) (e : Entry) : ScanState :=
  if should_skip_path (rootParts ++ e.relParts) then st
  else if e.isFile then
    if pyLower (pySuffix ((rootParts ++ e.relParts).getLastD "")) ∈ FILE_TYPES then
      match e.readResult with
      | .ok code =>
          { buffer := st.buffer ++ ("\n\n# File: " ++ joinParts e.relParts ++ "\n")
              ++ (code ++ "\n\n"),
            count := st.count + 1,
            results := st.results ++ [(e.relParts, code)] }
      | .error msg =>
          { st with
            buffer := st.buffer
              ++ ("\n\n[Error reading " ++ joinParts e.relParts ++ ": " ++ msg ++ "]") }
    else st
  else st

/-- The part of the context header after the title line (lines 73-81): the
`Directory:` line, then either the git lines (when `branch` and `commit` are
both truthy) or the not-a-repository marker line. -/
def headerTail (rootStr : String) (branch commit : Option String)
    (unstaged : Nat) : String :=
  "Directory: " ++ rootStr ++ "\n"
    ++ (if pyTruthy branch && pyTruthy commit then
          "Git Branch: " ++ branch.getD "" ++ "\n"
            ++ ("Git Commit ID: " ++ commit.getD "" ++ "\n")
            ++ (if 0 < unstaged then
                  "🚨 Unstaged Changes: " ++ toString unstaged ++ " files\n"
                else "")
        else "⚠️ Not a Git repository\n")

/-- The context header built on lines 69-83: title line with timestamp, blank
line, then the rest of the header. -/
def context_header (timestamp rootStr : String) (branch commit : Option String)
    (unstaged : Nat) : String :=
  "# 🚀 PROJECT CODE CONTEXT - " ++ timestamp ++ "\n\n"
    ++ headerTail rootStr branch commit unstaged

/-- `scan_project` (lines 59-113): build the header from the git query
results and the timestamp, fold the traversal loop over the enumerated
entries, and append the trailing summary line. -/
def scan_project (timestamp : String) (rootParts : List String)
    (branchQ commitQ statusQ : Except Unit String)
    (entries : List Entry) : ScanState :=
  let info := get_git_info branchQ commitQ statusQ
  let init : ScanState :=
    { buffer := context_header timestamp (joinParts rootParts) info.1 info.2.1 info.2.2
        ++ "\n",
      count := 0,
      results := [] }
  let st := entries.foldl (scanStep rootParts) init
  { st with
    buffer := st.buffer ++ ("\n\n📊 Total files processed: " ++ toString st.count ++ "\n") }

/-- Whether an entry survives the skip check, is a file, and has an included
extension (the guards of the loop body, lines 90-95). -/
def qualifies (rootParts : List String) (e : Entry) : Bool :=
  !should_skip_path (rootParts ++ e.relParts) && e.isFile &&
    decide (pyLower (pySuffix ((rootParts ++ e.relParts).getLastD "")) ∈ FILE_TYPES)

/-- The (relative path, content) pair an entry contributes to the ScanResult,
if any: only qualifying entries whose read succeeds contribute. -/
def emit (rootParts : List String) (e : Entry) : Option (List String × String) :=
  if qualifies rootParts e then
    match e.readResult with
    | .ok code => some (e.relParts, code)
    | .error _ => none
  else none

/-- The text a single entry appends to `combined_code`. -/
def bufDelta (rootParts : List String) (e : Entry) : String :=
  if qualifies rootParts e then
    match e.readResult with
    | .ok code => "\n\n# File: " ++ joinParts e.relParts ++ "\n" ++ code ++ "\n\n"
    | .error msg => "\n\n[Error reading " ++ joinParts e.relParts ++ ": " ++ msg ++ "]"
  else ""

/-- Concatenation of a list of strings. -/
def concatAll : List String → String
  | [] => ""
  | s :: rest => s ++ concatAll rest

theorem concatAll_append (l₁ l₂ : List String) :
    concatAll (l₁ ++ l₂) = concatAll l₁ ++ concatAll l₂ := by
  induction l₁ with
  | nil => simp [concatAll]
  | cons s rest ih => simp [concatAll, ih, String.append_assoc]

theorem scanStep_eq (r : List String) (st : ScanState) (e : Entry) :
    scanStep r st e =
      { buffer := st.buffer ++ bufDelta r e,
        count := st.count + (emit r e).toList.length,
        results := st.results ++ (emit r e).toList } := by
  rcases st with ⟨b, n, res⟩
  unfold scanStep bufDelta emit qualifies
  generalize pyLower (pySuffix ((r ++ e.relParts).getLastD "")) = q
  generalize should_skip_path (r ++ e.relParts) = sk
  rcases sk <;> rcases hf : e.isFile <;> by_cases hq : q ∈ FILE_TYPES <;>
    rcases he : e.readResult with msg | code <;>
      simp [hf, hq, he, String.append_assoc]

theorem foldl_scanStep (r : List String) (entries : List Entry) :
    ∀ st : ScanState,
      entries.foldl (scanStep r) st =
        { buffer := st.buffer ++ concatAll (entries.map (bufDelta r)),
          count := st.count + (entries.filterMap (emit r)).length,
          results := st.results ++ entries.filterMap (emit r) } := by
  induction entries with
  | nil => intro st; simp [concatAll]
  | cons e es ih =>
      intro st
      rw [List.foldl_cons, scanStep_eq, ih]
      rcases h : emit r e with _ | p <;>
        simp [concatAll, h, String.append_assoc, Nat.add_assoc, Nat.add_comm,
          List.filterMap_cons]

/-- Closed form of `scan_project`: header, per-entry buffer contributions in
discovery order, and trailing summary; the ScanResult is the `filterMap` of
`emit` over the enumerated entries. -/
theorem scan_project_eq (t : String) (r : List String)
    (bq cq sq : Except Unit String) (entries : List Entry) :
    scan_project t r bq cq sq entries =
      { buffer := context_header t (joinParts r) (get_git_info bq cq sq).1
            (get_git_info bq cq sq).2.1 (get_git_info bq cq sq).2.2
          ++ ("\n" ++ (concatAll (entries.map (bufDelta r))
            ++ ("\n\n📊 Total files processed: "
              ++ toString (entries.filterMap (emit r)).length ++ "\n"))),
        count := (entries.filterMap (emit r)).length,
        results := entries.filterMap (emit r) } := by
  simp only [scan_project, foldl_scanStep]
  simp [String.append_assoc]

theorem mem_results_iff (t : String) (r : List String)
    (bq cq sq : Except Unit String) (entries : List Entry)
    (rp : List String) (c : String) :
    (rp, c) ∈ (scan_project t r bq cq sq entries).results ↔
      ∃ e ∈ entries, emit r e = some (rp, c) := by
  rw [scan_project_eq]
  simp [List.mem_filterMap]

theorem emit_eq_some (r : List String) (e : Entry) (rp : List String)
    (c : String) (h : emit r e = some (rp, c)) :
    qualifies r e = true ∧ e.relParts = rp ∧ e.readResult = .ok c := by
  unfold emit at h
  by_cases hq : qualifies r e = true
  · rw [if_pos hq] at h
    rcases he : e.readResult with msg | code <;> rw [he] at h
    · exact absurd h (by simp)
    · refine ⟨hq, ?_, ?_⟩ <;> simp_all
  · rw [if_neg hq] at h
    exact absurd h (by simp)

theorem qualifies_elim (r : List String) (e : Entry)
    (h : qualifies r e = true) :
    should_skip_path (r ++ e.relParts) = false ∧ e.isFile = true ∧
      pyLower (pySuffix ((r ++ e.relParts).getLastD "")) ∈ FILE_TYPES := by
  unfold qualifies at h
  simp only [Bool.and_eq_true, Bool.not_eq_true', decide_eq_true_eq] at h
  exact ⟨h.1.1, h.1.2, h.2⟩

theorem should_skip_path_false (parts : List String)
    (h : should_skip_path parts = false) :
    (∀ part ∈ parts, pyLower part ∉ SKIP_DIRS) ∧
      pyLower (parts.getLastD "") ∉ SKIP_FILES := by
  unfold should_skip_path at h
  simp only [Bool.or_eq_false_iff, List.any_eq_false,
    decide_eq_false_iff_not, decide_eq_true_eq] at h
  exact h

theorem should_skip_path_of_mem (parts : List String) (part : String)
    (hmem : part ∈ parts) (hskip : pyLower part ∈ SKIP_DIRS) :
    should_skip_path parts = true := by
  unfold should_skip_path
  simp only [Bool.or_eq_true, List.any_eq_true, decide_eq_true_eq]
  exact Or.inl ⟨part, hmem, hskip⟩

theorem getLastD_mem_of_ne_nil (l : List String) (h : l ≠ []) (d : String) :
    l.getLastD d ∈ l := by
  rw [List.getLastD_eq_getLast?, List.getLast?_eq_getLast l h]
  simp only [Option.getD_some]
  exact List.getLast_mem h

/-- C1: every (relative path, content) pair in the ScanResult of
`scan_project` names a file whose extension (lowercased, with leading dot)
is in `FILE_TYPES`, no component of whose absolute path is in `SKIP_DIRS`
(case-insensitively), and whose name is not in `SKIP_FILES`
(case-insensitively). -/
theorem c1_scan_result_filter_invariant (t : String) (r : List String)
    (bq cq sq : Except Unit String) (entries : List Entry)
    (rp : List String) (c : String)
    (hmem : (rp, c) ∈ (scan_project t r bq cq sq entries).results) :
    pyLower (pySuffix ((r ++ rp).getLastD "")) ∈ FILE_TYPES ∧
    (∀ part ∈ r ++ rp, pyLower part ∉ SKIP_DIRS) ∧
    pyLower ((r ++ rp).getLastD "") ∉ SKIP_FILES := by
  obtain ⟨e, -, hsome⟩ := (mem_results_iff t r bq cq sq entries rp c).mp hmem
  obtain ⟨hq, hrel, -⟩ := emit_eq_some r e rp c hsome
  obtain ⟨hskip, -, hft⟩ := qualifies_elim r e hq
  rw [hrel] at hskip hft
  obtain ⟨hdirs, hfiles⟩ := should_skip_path_false _ hskip
  exact ⟨hft, hdirs, hfiles⟩

theorem c1_witness :
    pyLower (pySuffix (((["/", "r"] : List String) ++ ["a.py"]).getLastD ""))
        ∈ FILE_TYPES ∧
    (∀ part ∈ (["/", "r"] : List String) ++ ["a.py"],
      pyLower part ∉ SKIP_DIRS) ∧
    pyLower (((["/", "r"] : List String) ++ ["a.py"]).getLastD "")
        ∉ SKIP_FILES :=
  c1_scan_result_filter_invariant "TS" ["/", "r"]
    (.error ()) (.error ()) (.error ())
    [⟨["a.py"], true, 0, .ok "x"⟩] ["a.py"] "x" (by decide)

/-- C2: if a directory anywhere in the tree has a name equal in any letter
case to an entry of `SKIP_DIRS`, no pair whose absolute path extends that
directory's path appears in the ScanResult, regardless of its own name or
extension. -/
theorem c2_skip_dir_excludes_descendants (t : String) (r : List String)
    (bq cq sq : Except Unit String) (entries : List Entry)
    (dp : List String) (hne : dp ≠ [])
    (hname : pyLower (dp.getLastD "") ∈ SKIP_DIRS)
    (rp : List String) (c : String) (hdesc : dp <+: r ++ rp) :
    (rp, c) ∉ (scan_project t r bq cq sq entries).results := by
  intro hmem
  obtain ⟨e, -, hsome⟩ := (mem_results_iff t r bq cq sq entries rp c).mp hmem
  obtain ⟨hq, hrel, -⟩ := emit_eq_some r e rp c hsome
  obtain ⟨hskip, -, -⟩ := qualifies_elim r e hq
  rw [hrel] at hskip
  have hlast : dp.getLastD "" ∈ r ++ rp :=
    hdesc.subset (getLastD_mem_of_ne_nil dp hne "")
  have htrue := should_skip_path_of_mem (r ++ rp) _ hlast hname
  rw [hskip] at htrue
  exact Bool.noConfusion htrue

theorem c2_witness :
    (["node_modules", "a.py"], "x") ∉
      (scan_project "TS" ["/", "r"] (.error ()) (.error ()) (.error ())
        [⟨["node_modules", "a.py"], true, 0, .ok "x"⟩]).results :=
  c2_skip_dir_excludes_descendants "TS" ["/", "r"]
    (.error ()) (.error ()) (.error ())
    [⟨["node_modules", "a.py"], true, 0, .ok "x"⟩]
    ["/", "r", "node_modules"] (by decide) (by decide)
    ["node_modules", "a.py"] "x" (by decide)

/-- C8: `.json` is in the inclusion set, yet no pair in the ScanResult names
a file called `package-lock.json` in any letter case. -/
theorem c8_package_lock_excluded (t : String) (r : List String)
    (bq cq sq : Except Unit String) (entries : List Entry) :
    ".json" ∈ FILE_TYPES ∧
    ∀ rp c, (rp, c) ∈ (scan_project t r bq cq sq entries).results →
      pyLower ((r ++ rp).getLastD "") ≠ "package-lock.json" := by
  refine ⟨by decide, ?_⟩
  intro rp c hmem heq
  obtain ⟨e, -, hsome⟩ := (mem_results_iff t r bq cq sq entries rp c).mp hmem
  obtain ⟨hq, hrel, -⟩ := emit_eq_some r e rp c hsome
  obtain ⟨hskip, -, -⟩ := qualifies_elim r e hq
  rw [hrel] at hskip
  obtain ⟨-, hfiles⟩ := should_skip_path_false _ hskip
  rw [heq] at hfiles
  exact hfiles (by decide)

theorem c8_witness :
    ".json" ∈ FILE_TYPES ∧
    pyLower (((["/", "r"] : List String) ++ ["a.py"]).getLastD "")
        ≠ "package-lock.json" :=
  ⟨(c8_package_lock_excluded "TS" ["/", "r"]
      (.error ()) (.error ()) (.error ())
      [⟨["Package-Lock.JSON"], true, 0, .ok "lockdata"⟩,
       ⟨["a.py"], true, 0, .ok "x"⟩]).1,
   (c8_package_lock_excluded "TS" ["/", "r"]
      (.error ()) (.error ()) (.error ())
      [⟨["Package-Lock.JSON"], true, 0, .ok "lockdata"⟩,
       ⟨["a.py"], true, 0, .ok "x"⟩]).2 ["a.py"] "x" (by decide)⟩

/-- C9: if the resolved scan root's own path has a component whose lowercase
form is in `SKIP_DIRS`, every enumerated entry is skipped: the ScanResult is
empty, the processed count is 0, and the trailing summary line reports 0. -/
theorem c9_root_inside_skip_dir (t : String) (r : List String)
    (bq cq sq : Except Unit String) (entries : List Entry)
    (hroot : ∃ p ∈ r, pyLower p ∈ SKIP_DIRS) :
    (scan_project t r bq cq sq entries).results = [] ∧
    (scan_project t r bq cq sq entries).count = 0 ∧
    ∃ a, (scan_project t r bq cq sq entries).buffer =
      a ++ "\n\n📊 Total files processed: 0\n" := by
  obtain ⟨p, hp, hskipP⟩ := hroot
  have hemit : ∀ e : Entry, emit r e = none := by
    intro e
    have hsk : should_skip_path (r ++ e.relParts) = true :=
      should_skip_path_of_mem _ p (List.mem_append_left _ hp) hskipP
    unfold emit qualifies
    rw [hsk]
    simp
  have hfm : entries.filterMap (emit r) = [] :=
    List.filterMap_eq_nil_iff.mpr fun e _ => hemit e
  rw [scan_project_eq]
  refine ⟨hfm, by rw [hfm]; rfl, ?_⟩
  refine ⟨context_header t (joinParts r) (get_git_info bq cq sq).1
      (get_git_info bq cq sq).2.1 (get_git_info bq cq sq).2.2
    ++ ("\n" ++ concatAll (entries.map (bufDelta r))), ?_⟩
  rw [hfm]
  simp [String.append_assoc]
  rfl

theorem c9_witness :
    (scan_project "TS" ["/", "home", "env", "proj"]
        (.error ()) (.error ()) (.error ())
        [⟨["a.py"], true, 0, .ok "x"⟩]).results = [] ∧
    (scan_project "TS" ["/", "home", "env", "proj"]
        (.error ()) (.error ()) (.error ())
        [⟨["a.py"], true, 0, .ok "x"⟩]).count = 0 ∧
    ∃ a, (scan_project "TS" ["/", "home", "env", "proj"]
        (.error ()) (.error ()) (.error ())
        [⟨["a.py"], true, 0, .ok "x"⟩]).buffer =
      a ++ "\n\n📊 Total files processed: 0\n" :=
  c9_root_inside_skip_dir "TS" ["/", "home", "env", "proj"]
    (.error ()) (.error ()) (.error ())
    [⟨["a.py"], true, 0, .ok "x"⟩] ⟨"env", by decide, by decide⟩

theorem emit_size_update (r : List String) (v : Nat) (e : Entry) :
    emit r { e with size := v } = emit r e := rfl

theorem bufDelta_size_update (r : List String) (v : Nat) (e : Entry) :
    bufDelta r { e with size := v } = bufDelta r e := rfl

theorem filterMap_emit_size_update (r : List String) (g : Entry → Nat)
    (entries : List Entry) :
    (entries.map fun e => { e with size := g e }).filterMap (emit r) =
      entries.filterMap (emit r) := by
  induction entries with
  | nil => rfl
  | cons e es ih =>
      simp only [List.map_cons, List.filterMap_cons, emit_size_update, ih]

theorem map_bufDelta_size_update (r : List String) (g : Entry → Nat)
    (entries : List Entry) :
    (entries.map fun e => { e with size := g e }).map (bufDelta r) =
      entries.map (bufDelta r) := by
  induction entries with
  | nil => rfl
  | cons e es ih =>
      simp only [List.map_cons, bufDelta_size_update, ih]

/-- C4: the 95 MiB `MAX_FILE_SIZE` threshold has no effect: the scan output
is invariant under arbitrary changes to every entry's size, and a qualifying
readable file larger than the threshold still contributes its entire content
to the ScanResult. -/
theorem c4_max_file_size_no_effect (t : String) (r : List String)
    (bq cq sq : Except Unit String) (entries : List Entry) :
    (∀ g : Entry → Nat,
      scan_project t r bq cq sq (entries.map fun e => { e with size := g e }) =
        scan_project t r bq cq sq entries) ∧
    (∀ e ∈ entries, ∀ code, qualifies r e = true → e.readResult = .ok code →
      MAX_FILE_SIZE < e.size →
      (e.relParts, code) ∈ (scan_project t r bq cq sq entries).results) := by
  constructor
  · intro g
    rw [scan_project_eq, scan_project_eq,
      map_bufDelta_size_update, filterMap_emit_size_update]
  · intro e he code hq hok _
    rw [mem_results_iff]
    exact ⟨e, he, by unfold emit; rw [if_pos hq, hok]⟩

theorem c4_witness :
    (scan_project "TS" ["/", "r"] (.error ()) (.error ()) (.error ())
        [⟨["big.py"], true, MAX_FILE_SIZE + 1, .ok "x"⟩] =
      scan_project "TS" ["/", "r"] (.error ()) (.error ()) (.error ())
        [⟨["big.py"], true, MAX_FILE_SIZE + 1, .ok "x"⟩]) ∧
    (["big.py"], "x") ∈
      (scan_project "TS" ["/", "r"] (.error ()) (.error ()) (.error ())
        [⟨["big.py"], true, MAX_FILE_SIZE + 1, .ok "x"⟩]).results :=
  ⟨(c4_max_file_size_no_effect "TS" ["/", "r"]
      (.error ()) (.error ()) (.error ())
      [⟨["big.py"], true, MAX_FILE_SIZE + 1, .ok "x"⟩]).1 (fun e => e.size),
   (c4_max_file_size_no_effect "TS" ["/", "r"]
      (.error ()) (.error ()) (.error ())
      [⟨["big.py"], true, MAX_FILE_SIZE + 1, .ok "x"⟩]).2
     ⟨["big.py"], true, MAX_FILE_SIZE + 1, .ok "x"⟩ (by simp) "x"
     (by decide) rfl (by decide)⟩

/-- C5: on a read error for a qualifying file, the aggregate buffer gains an
inline error marker naming the relative path and the message, the processed
count and the ScanResult are those of the scan without that entry, and the
trailing summary still reports that count. -/
theorem c5_read_error_recovery (t : String) (r : List String)
    (bq cq sq : Except Unit String) (pre post : List Entry) (e : Entry)
    (msg : String) (hq : qualifies r e = true)
    (he : e.readResult = .error msg) :
    (scan_project t r bq cq sq (pre ++ e :: post)).count =
      (scan_project t r bq cq sq (pre ++ post)).count ∧
    (scan_project t r bq cq sq (pre ++ e :: post)).results =
      (scan_project t r bq cq sq (pre ++ post)).results ∧
    (∃ a b, (scan_project t r bq cq sq (pre ++ e :: post)).buffer =
      a ++ ("\n\n[Error reading " ++ joinParts e.relParts ++ ": " ++ msg ++ "]")
        ++ b) ∧
    (∃ a, (scan_project t r bq cq sq (pre ++ e :: post)).buffer =
      a ++ ("\n\n📊 Total files processed: "
        ++ toString (scan_project t r bq cq sq (pre ++ post)).count ++ "\n")) := by
  have hemit : emit r e = none := by
    unfold emit; rw [if_pos hq, he]
  have hdelta : bufDelta r e =
      "\n\n[Error reading " ++ joinParts e.relParts ++ ": " ++ msg ++ "]" := by
    unfold bufDelta; rw [if_pos hq, he]
  have hfm : (pre ++ e :: post).filterMap (emit r) =
      (pre ++ post).filterMap (emit r) := by
    simp [List.filterMap_append, List.filterMap_cons, hemit]
  refine ⟨?_, ?_, ?_, ?_⟩
  · rw [scan_project_eq, scan_project_eq, hfm]
  · rw [scan_project_eq, scan_project_eq, hfm]
  · rw [scan_project_eq]
    refine ⟨context_header t (joinParts r) (get_git_info bq cq sq).1
        (get_git_info bq cq sq).2.1 (get_git_info bq cq sq).2.2
      ++ ("\n" ++ concatAll (pre.map (bufDelta r))),
      concatAll (post.map (bufDelta r))
      ++ ("\n\n📊 Total files processed: "
        ++ toString ((pre ++ e :: post).filterMap (emit r)).length ++ "\n"), ?_⟩
    rw [List.map_append, concatAll_append, List.map_cons]
    show _ = _
    rw [hdelta]
    simp [concatAll, String.append_assoc]
  · rw [scan_project_eq, scan_project_eq, hfm]
    exact ⟨context_header t (joinParts r) (get_git_info bq cq sq).1
        (get_git_info bq cq sq).2.1 (get_git_info bq cq sq).2.2
      ++ ("\n" ++ concatAll ((pre ++ e :: post).map (bufDelta r))),
      by simp [String.append_assoc]⟩

theorem c5_witness :
    (scan_project "TS" ["/", "r"] (.error ()) (.error ()) (.error ())
        ([] ++ ⟨["b.md"], true, 0, .error "boom"⟩ :: [])).count =
      (scan_project "TS" ["/", "r"] (.error ()) (.error ()) (.error ())
        ([] ++ [])).count ∧
    (scan_project "TS" ["/", "r"] (.error ()) (.error ()) (.error ())
        ([] ++ ⟨["b.md"], true, 0, .error "boom"⟩ :: [])).results =
      (scan_project "TS" ["/", "r"] (.error ()) (.error ()) (.error ())
        ([] ++ [])).results ∧
    (∃ a b, (scan_project "TS" ["/", "r"] (.error ()) (.error ()) (.error ())
        ([] ++ ⟨["b.md"], true, 0, .error "boom"⟩ :: [])).buffer =
      a ++ ("\n\n[Error reading "
        ++ joinParts (Entry.mk ["b.md"] true 0 (.error "boom")).relParts
        ++ ": " ++ "boom" ++ "]") ++ b) ∧
    (∃ a, (scan_project "TS" ["/", "r"] (.error ()) (.error ()) (.error ())
        ([] ++ ⟨["b.md"], true, 0, .error "boom"⟩ :: [])).buffer =
      a ++ ("\n\n📊 Total files processed: "
        ++ toString (scan_project "TS" ["/", "r"]
          (.error ()) (.error ()) (.error ()) ([] ++ [])).count ++ "\n")) :=
  c5_read_error_recovery "TS" ["/", "r"] (.error ()) (.error ()) (.error ())
    [] [] ⟨["b.md"], true, 0, .error "boom"⟩ "boom" (by decide) rfl

/-- C6: when all three git queries succeed, the modified-or-untracked count
is the number of status lines starting with `" M"` or `"??"`; on any query
failure it is 0. -/
theorem c6_unstaged_count (bq cq sq : Except Unit String) :
    (∀ b c s, bq = .ok b → cq = .ok c → sq = .ok s →
      (get_git_info bq cq sq).2.2 =
        (pySplitlines s).countP
          (fun line => pyStartswith line " M" || pyStartswith line "??")) ∧
    (bq = .error () ∨ cq = .error () ∨ sq = .error () →
      (get_git_info bq cq sq).2.2 = 0) := by
  constructor
  · rintro b c s rfl rfl rfl
    simp [get_git_info, List.countP_eq_length_filter]
  · intro h
    rcases bq with u | b <;> rcases cq with v | c <;> rcases sq with w | s <;>
      simp_all [get_git_info]

theorem c6_witness :
    (get_git_info (.ok "main") (.ok "abc123")
        (.ok " M a.py\n?? b.md\nA  c.txt\n")).2.2 =
      (pySplitlines " M a.py\n?? b.md\nA  c.txt\n").countP
        (fun line => pyStartswith line " M" || pyStartswith line "??") :=
  (c6_unstaged_count (.ok "main") (.ok "abc123")
      (.ok " M a.py\n?? b.md\nA  c.txt\n")).1
    "main" "abc123" " M a.py\n?? b.md\nA  c.txt\n" rfl rfl rfl

/-- C7: with the tree, configuration and git query results fixed, two runs
differ only in the timestamp spliced into the title line: there is a common
rest of the buffer, and the ScanResult and count coincide. -/
theorem c7_deterministic_up_to_timestamp (t₁ t₂ : String) (r : List String)
    (bq cq sq : Except Unit String) (entries : List Entry) :
    ∃ rest,
      (scan_project t₁ r bq cq sq entries).buffer =
        "# 🚀 PROJECT CODE CONTEXT - " ++ t₁ ++ rest ∧
      (scan_project t₂ r bq cq sq entries).buffer =
        "# 🚀 PROJECT CODE CONTEXT - " ++ t₂ ++ rest ∧
      (scan_project t₁ r bq cq sq entries).results =
        (scan_project t₂ r bq cq sq entries).results ∧
      (scan_project t₁ r bq cq sq entries).count =
        (scan_project t₂ r bq cq sq entries).count := by
  refine ⟨"\n\n" ++ (headerTail (joinParts r) (get_git_info bq cq sq).1
      (get_git_info bq cq sq).2.1 (get_git_info bq cq sq).2.2
    ++ ("\n" ++ (concatAll (entries.map (bufDelta r))
      ++ ("\n\n📊 Total files processed: "
        ++ toString (entries.filterMap (emit r)).length ++ "\n")))),
    ?_, ?_, ?_, ?_⟩
  · rw [scan_project_eq]
    unfold context_header
    simp [String.append_assoc]
  · rw [scan_project_eq]
    unfold context_header
    simp [String.append_assoc]
  · rw [scan_project_eq, scan_project_eq]
  · rw [scan_project_eq, scan_project_eq]

/-- C10: when a qualifying file's read fails, the loop iteration extends the
buffer by exactly the inline error marker: no `# File:` header line and no
content for that file is appended, and the count and ScanResult are
untouched. -/
theorem c10_error_marker_atomicity (r : List String) (st : ScanState)
    (e : Entry) (msg : String) (hq : qualifies r e = true)
    (he : e.readResult = .error msg) :
    scanStep r st e =
      { st with buffer := st.buffer
          ++ ("\n\n[Error reading " ++ joinParts e.relParts ++ ": "
            ++ msg ++ "]") } := by
  rw [scanStep_eq]
  have hemit : emit r e = none := by
    unfold emit; rw [if_pos hq, he]
  have hdelta : bufDelta r e =
      "\n\n[Error reading " ++ joinParts e.relParts ++ ": " ++ msg ++ "]" := by
    unfold bufDelta; rw [if_pos hq, he]
  rw [hemit, hdelta]
  simp

theorem c10_witness :
    scanStep ["/", "r"] ⟨"HEADER", 3, [(["a.py"], "x")]⟩
        ⟨["b.md"], true, 0, .error "boom"⟩ =
      { buffer := "HEADER"
          ++ ("\n\n[Error reading " ++ joinParts ["b.md"] ++ ": "
            ++ "boom" ++ "]"),
        count := 3,
        results := [(["a.py"], "x")] } :=
  c10_error_marker_atomicity ["/", "r"] ⟨"HEADER", 3, [(["a.py"], "x")]⟩
    ⟨["b.md"], true, 0, .error "boom"⟩ "boom" (by decide) rfl

theorem no_warn_append (a b : String) (ha : '⚠' ∉ a.data)
    (hb : '⚠' ∉ b.data) : '⚠' ∉ (a ++ b).data := by
  simp only [String.data_append, List.mem_append]
  rintro (h | h)
  exacts [ha h, hb h]

theorem digitChar_ne_warn (m : Nat) : Nat.digitChar m ≠ '⚠' := by
  rcases Nat.lt_or_ge m 16 with h | h
  · interval_cases m <;> decide
  · have h0 : Nat.digitChar m = '*' := by
      unfold Nat.digitChar
      repeat rw [if_neg (by omega)]
    rw [h0]
    decide

theorem toDigitsCore_warn_mem (b : Nat) :
    ∀ (fuel n : Nat) (acc : List Char),
      '⚠' ∈ Nat.toDigitsCore b fuel n acc → '⚠' ∈ acc
  | 0, _, _, h => h
  | fuel+1, n, acc, h => by
      simp only [Nat.toDigitsCore] at h
      split at h
      · rcases List.mem_cons.mp h with h1 | h1
        · exact absurd h1.symm (digitChar_ne_warn _)
        · exact h1
      · rcases List.mem_cons.mp (toDigitsCore_warn_mem b fuel _ _ h) with h1 | h1
        · exact absurd h1.symm (digitChar_ne_warn _)
        · exact h1

theorem repr_no_warn (n : Nat) : '⚠' ∉ (toString n).data := by
  intro h
  have h0 : (toString n).data = Nat.toDigitsCore 10 (n+1) n [] := rfl
  rw [h0] at h
  simpa using toDigitsCore_warn_mem 10 (n+1) n [] h

/-- Case analysis of the header: the not-a-repository marker line is an
infix of the header exactly when `branch` and `commit` are not both truthy,
and when they are both truthy the header carries the Git Branch and Git
Commit ID labels. The hypotheses exclude the warning-sign character from the
timestamp, directory string, branch and commit (true of the real values). -/
theorem header_marker_cases (t s : String) (branch commit : Option String)
    (n : Nat) (ht : '⚠' ∉ t.data) (hs : '⚠' ∉ s.data)
    (hb : '⚠' ∉ (branch.getD "").data) (hc : '⚠' ∉ (commit.getD "").data) :
    ("⚠️ Not a Git repository\n".data <:+:
        (context_header t s branch commit n).data ↔
      ¬(pyTruthy branch = true ∧ pyTruthy commit = true)) ∧
    (pyTruthy branch = true ∧ pyTruthy commit = true →
      ("Git Branch: ".data <:+: (context_header t s branch commit n).data) ∧
      ("Git Commit ID: ".data <:+: (context_header t s branch commit n).data)) := by
  by_cases hp : (pyTruthy branch && pyTruthy commit) = true
  · have hand : pyTruthy branch = true ∧ pyTruthy commit = true := by
      simpa [Bool.and_eq_true] using hp
    have hH : context_header t s branch commit n =
        "# 🚀 PROJECT CODE CONTEXT - " ++ t ++ "\n\n"
          ++ ("Directory: " ++ s ++ "\n"
            ++ ("Git Branch: " ++ branch.getD "" ++ "\n"
                ++ ("Git Commit ID: " ++ commit.getD "" ++ "\n")
                ++ (if 0 < n then
                      "🚨 Unstaged Changes: " ++ toString n ++ " files\n"
                    else ""))) := by
      unfold context_header headerTail
      rw [if_pos hp]
    have hE : '⚠' ∉ (if 0 < n then
        "🚨 Unstaged Changes: " ++ toString n ++ " files\n" else "").data := by
      by_cases hn : 0 < n
      · rw [if_pos hn]
        exact no_warn_append _ _
          (no_warn_append _ _ (by decide) (repr_no_warn n)) (by decide)
      · rw [if_neg hn]
        decide
    have hnw : '⚠' ∉ (context_header t s branch commit n).data := by
      rw [hH]
      exact no_warn_append _ _
        (no_warn_append _ _ (no_warn_append _ _ (by decide) ht) (by decide))
        (no_warn_append _ _
          (no_warn_append _ _ (no_warn_append _ _ (by decide) hs) (by decide))
          (no_warn_append _ _
            (no_warn_append _ _
              (no_warn_append _ _
                (no_warn_append _ _ (by decide) hb) (by decide))
              (no_warn_append _ _
                (no_warn_append _ _ (by decide) hc) (by decide)))
            hE))
    refine ⟨⟨fun hinf => (hnw (hinf.subset (by decide))).elim,
      fun hneg => (hneg hand).elim⟩, fun _ => ⟨?_, ?_⟩⟩
    · rw [hH]
      refine ⟨("# 🚀 PROJECT CODE CONTEXT - " ++ t ++ "\n\n"
          ++ ("Directory: " ++ s ++ "\n")).data,
        ((branch.getD "" ++ "\n" ++ ("Git Commit ID: " ++ commit.getD "" ++ "\n"))
          ++ (if 0 < n then
                "🚨 Unstaged Changes: " ++ toString n ++ " files\n"
              else "")).data, ?_⟩
      simp [String.data_append, List.append_assoc]
    · rw [hH]
      refine ⟨("# 🚀 PROJECT CODE CONTEXT - " ++ t ++ "\n\n"
          ++ ("Directory: " ++ s ++ "\n")
          ++ ("Git Branch: " ++ branch.getD "" ++ "\n")).data,
        ((commit.getD "" ++ "\n")
          ++ (if 0 < n then
                "🚨 Unstaged Changes: " ++ toString n ++ " files\n"
              else "")).data, ?_⟩
      simp [String.data_append, List.append_assoc]
  · have hH : context_header t s branch commit n =
        "# 🚀 PROJECT CODE CONTEXT - " ++ t ++ "\n\n"
          ++ ("Directory: " ++ s ++ "\n" ++ "⚠️ Not a Git repository\n") := by
      unfold context_header headerTail
      rw [if_neg hp]
    refine ⟨⟨fun _ => ?_, fun _ => ?_⟩, fun hand =>
      absurd (by simp [Bool.and_eq_true, hand.1, hand.2]) hp⟩
    · rintro ⟨h1, h2⟩
      exact hp (by simp [Bool.and_eq_true, h1, h2])
    · rw [hH]
      refine ⟨("# 🚀 PROJECT CODE CONTEXT - " ++ t ++ "\n\n"
          ++ ("Directory: " ++ s ++ "\n")).data, [], ?_⟩
      simp [String.data_append, List.append_assoc]

set_option maxRecDepth 8000 in
/-- C3 counterexample: all three git queries succeed (branch query returns
the empty output of a detached HEAD, commit and status succeed), yet the
output contains the not-a-repository marker and no `Git Branch:` line,
because the code tests the truthiness of the branch string, not query
success. -/
theorem c3_counterexample :
    "⚠️ Not a Git repository\n".data <:+:
      (scan_project "2025-01-01 12:00:00" ["/", "r"]
        (.ok "") (.ok "abc123") (.ok "") []).buffer.data ∧
    ¬ ("Git Branch: ".data <:+:
      (scan_project "2025-01-01 12:00:00" ["/", "r"]
        (.ok "") (.ok "abc123") (.ok "") []).buffer.data) := by
  constructor <;> decide

/-- C3 (amended): the header contains the not-a-repository marker line
exactly when the git metadata is not truthy-present: some query failed, or
all succeeded but the stripped branch or commit output is empty. When all
three queries succeed with nonempty stripped branch and commit outputs, the
header instead carries the `Git Branch:` and `Git Commit ID:` labels and no
marker. The hypotheses exclude the warning-sign character from the
timestamp, directory string and query outputs, as is true of the real
values. -/
theorem c3_marker_iff_metadata_absent (t s : String)
    (bq cq sq : Except Unit String)
    (ht : '⚠' ∉ t.data) (hs : '⚠' ∉ s.data)
    (hb : '⚠' ∉ ((get_git_info bq cq sq).1.getD "").data)
    (hc : '⚠' ∉ ((get_git_info bq cq sq).2.1.getD "").data) :
    ("⚠️ Not a Git repository\n".data <:+:
        (context_header t s (get_git_info bq cq sq).1
          (get_git_info bq cq sq).2.1 (get_git_info bq cq sq).2.2).data ↔
      ¬(pyTruthy (get_git_info bq cq sq).1 = true ∧
        pyTruthy (get_git_info bq cq sq).2.1 = true)) ∧
    (pyTruthy (get_git_info bq cq sq).1 = true ∧
        pyTruthy (get_git_info bq cq sq).2.1 = true →
      ("Git Branch: ".data <:+:
        (context_header t s (get_git_info bq cq sq).1
          (get_git_info bq cq sq).2.1 (get_git_info bq cq sq).2.2).data) ∧
      ("Git Commit ID: ".data <:+:
        (context_header t s (get_git_info bq cq sq).1
          (get_git_info bq cq sq).2.1 (get_git_info bq cq sq).2.2).data)) :=
  header_marker_cases t s (get_git_info bq cq sq).1
    (get_git_info bq cq sq).2.1 (get_git_info bq cq sq).2.2 ht hs hb hc

theorem c3_witness :
    ("⚠️ Not a Git repository\n".data <:+:
        (context_header "2025-01-01 12:00:00" "/r"
          (get_git_info (.ok "main\n") (.ok "abc123\n") (.ok "")).1
          (get_git_info (.ok "main\n") (.ok "abc123\n") (.ok "")).2.1
          (get_git_info (.ok "main\n") (.ok "abc123\n") (.ok "")).2.2).data ↔
      ¬(pyTruthy (get_git_info (.ok "main\n") (.ok "abc123\n") (.ok "")).1 = true ∧
        pyTruthy (get_git_info (.ok "main\n") (.ok "abc123\n") (.ok "")).2.1 = true)) ∧
    (pyTruthy (get_git_info (.ok "main\n") (.ok "abc123\n") (.ok "")).1 = true ∧
        pyTruthy (get_git_info (.ok "main\n") (.ok "abc123\n") (.ok "")).2.1 = true →
      ("Git Branch: ".data <:+:
        (context_header "2025-01-01 12:00:00" "/r"
          (get_git_info (.ok "main\n") (.ok "abc123\n") (.ok "")).1
          (get_git_info (.ok "main\n") (.ok "abc123\n") (.ok "")).2.1
          (get_git_info (.ok "main\n") (.ok "abc123\n") (.ok "")).2.2).data) ∧
      ("Git Commit ID: ".data <:+:
        (context_header "2025-01-01 12:00:00" "/r"
          (get_git_info (.ok "main\n") (.ok "abc123\n") (.ok "")).1
          (get_git_info (.ok "main\n") (.ok "abc123\n") (.ok "")).2.1
          (get_git_info (.ok "main\n") (.ok "abc123\n") (.ok "")).2.2).data)) :=
  c3_marker_iff_metadata_absent "2025-01-01 12:00:00" "/r"
    (.ok "main\n") (.ok "abc123\n") (.ok "")
    (by decide) (by decide) (by decide) (by decide)

end ProjectScanner
